import Mathlib

/-!
Shallow embedding of the `pinocchio-star-frame` sources:
  * `star_frame/src/instruction/mod.rs` — the generic instruction lifecycle
    (`process_from_raw` of the blanket `impl<T: StarFrameInstruction> Instruction for T`);
  * `star_frame_spl/src/associated_token.rs` — associated-token-account address
    derivation, validation and conditional initialization.

Machine bytes are modelled as `List Nat`; fallible Rust code returns `Except`.
External side effects (`set_return_data`, the rent-funding transfer, the CPI)
are modelled as an explicit event list produced alongside the result, and
`&mut` state is threaded explicitly.
-/

namespace StarFrame

/-- Bytes of a slice `&[u8]`. -/
abbrev Bytes := List Nat

/-- A Solana public key, as its 32 raw bytes. -/
abbrev Pubkey := Bytes

/-! ## Instruction lifecycle (`star_frame/src/instruction/mod.rs`) -/

/-- Mirror of `IxArgs<'a, T>`: the result of `InstructionArgs::split_to_args`,
holding the four stage-scoped views of the decoded instruction. -/
structure IxArgs (DA VA RA CA : Type) where
  decode : DA
  validate : VA
  run : RA
  cleanup : CA

/-- Errors produced by `process_from_raw`.  `invalidDataSize` is the
`ensure!` failure `"Invalid instruction data size: expected {} bytes, got {}"`
(it records both the expected and the actual length); `wrapped msg e` is a
stage error `e` wrapped by `.ctx(msg)`. -/
inductive PErr (E : Type) where
  | invalidDataSize (expected actual : Nat)
  | wrapped (msg : String) (e : E)
  deriving DecidableEq

/-- External effects performed by `process_from_raw`: the only one is the call
to `pinocchio::cpi::set_return_data` in step 7. -/
inductive Effect where
  | setReturnData (bytes : Bytes)
  deriving DecidableEq

/-- Model of one `T : StarFrameInstruction` instantiation together with the
trait methods `process_from_raw` calls on it.  `size` is `size_of::<T>()`;
`fromBytes` is `bytemuck::from_bytes` (applied only to an exact-size slice);
the four stage functions thread the account slice, account set and context
exactly as the `&mut` borrows in the Rust signatures do; `retSize` is
`size_of::<T::ReturnType>()` and `retBytes` is `bytemuck::bytes_of`. -/
structure InstructionModel (T DA VA RA CA AS Ret Ctx A E : Type) where
  size : Nat
  fromBytes : Bytes → T
  split_to_args : T → IxArgs DA VA RA CA
  newCtx : Ctx
  decode_accounts : List A → DA → Ctx → Except E (AS × List A × Ctx)
  validate_accounts : AS → VA → Ctx → Except E (AS × Ctx)
  process : AS → RA → Ctx → Except E (Ret × AS × Ctx)
  cleanup_accounts : AS → CA → Ctx → Except E (AS × Ctx)
  retSize : Nat
  retBytes : Ret → Bytes

variable {T DA VA RA CA AS Ret Ctx A E : Type}

/-- Mirror of `<T as Instruction>::process_from_raw` from
`star_frame/src/instruction/mod.rs` (the blanket impl for
`T: StarFrameInstruction`).  Steps, as in the source:
1. `ensure!(instruction_data.len() == expected_size, ...)`, then
   `bytemuck::from_bytes` (zero-copy cast, exact size required);
2. `T::split_to_args`;
3. `decode_accounts` (`.ctx("Failed to decode accounts")`);
4. `validate_accounts` (`.ctx("Failed to validate accounts")`);
5. `T::process` (`.ctx("Failed to run instruction")`);
6. `cleanup_accounts` (`.ctx("Failed to cleanup accounts")`);
7. `set_return_data(bytes_of(&ret))` if `size_of::<T::ReturnType>() > 0`.
The second component collects the external effects performed. -/
def process_from_raw (M : InstructionModel T DA VA RA CA AS Ret Ctx A E)
    (accounts : List A) (instruction_data : Bytes) :
    Except (PErr E) Unit × List Effect :=
  let ctx := M.newCtx
  if instruction_data.length = M.size then
    let data : T := M.fromBytes instruction_data
    let args := M.split_to_args data
    match M.decode_accounts accounts args.decode ctx with
    | .error e => (.error (.wrapped "Failed to decode accounts" e), [])
    | .ok (account_set, _, ctx1) =>
      match M.validate_accounts account_set args.validate ctx1 with
      | .error e => (.error (.wrapped "Failed to validate accounts" e), [])
      | .ok (account_set2, ctx2) =>
        match M.process account_set2 args.run ctx2 with
        | .error e => (.error (.wrapped "Failed to run instruction" e), [])
        | .ok (ret, account_set3, ctx3) =>
          match M.cleanup_accounts account_set3 args.cleanup ctx3 with
          | .error e => (.error (.wrapped "Failed to cleanup accounts" e), [])
          | .ok _ =>
            if M.retSize > 0 then (.ok (), [.setReturnData (M.retBytes ret)])
            else (.ok (), [])
  else (.error (.invalidDataSize M.size instruction_data.length), [])

/-- A concrete instantiation of the model with an 8-byte instruction struct
whose account stages all succeed (the shape of an
`empty_star_frame_instruction!` with a unit account set), used to evaluate
the lifecycle on concrete inputs. -/
def trivialModel : InstructionModel Unit Unit Unit Unit Unit Unit Unit Unit Unit Unit where
  size := 8
  fromBytes := fun _ => ()
  split_to_args := fun _ => ⟨(), (), (), ()⟩
  newCtx := ()
  decode_accounts := fun a _ c => .ok ((), a, c)
  validate_accounts := fun s _ c => .ok (s, c)
  process := fun s _ c => .ok ((), s, c)
  cleanup_accounts := fun s _ c => .ok (s, c)
  retSize := 0
  retBytes := fun _ => []

/-! ## Associated token accounts (`star_frame_spl/src/associated_token.rs`) -/

/-- Error codes from `star_frame::errors::ErrorCode` used by the associated
token module (`EmpthFunderCache` keeps the source's spelling); `other n`
stands for any error raised by collaborators outside the excerpt (the token
account validation, `ctx.get_rent()`, the funding transfer, the CPI). -/
inductive ErrorCode where
  | AddressMismatch
  | EmpthFunderCache
  | InvalidSeeds
  | NotWritable
  | other (n : Nat)
  deriving DecidableEq

/-- State of one external account as exposed through `SingleAccountSet`:
address, owning program, lamport balance, data bytes, writable flag. -/
structure AccountState where
  pubkey : Pubkey
  owner : Pubkey
  lamports : Nat
  data : Bytes
  is_writable : Bool
  deriving DecidableEq

/-- Collaborators of `associated_token.rs` that live outside the excerpt,
bundled as one environment: `fpa` is the external address-derivation
primitive `Pubkey::find_program_address` (seeds, program id → address, bump);
`tokenID` is `Token::ID` and `ataID` is `AssociatedToken::ID` (opaque 32-byte
constants); `tokenAccountLEN` is `TokenAccount::LEN`; `tokenValidate` is the
inner `TokenAccount` validation called as `self.validate()` (its definition is
in the token module, outside the excerpt, so it is kept abstract). -/
structure Env where
  fpa : List Bytes → Pubkey → Pubkey × Nat
  tokenID : Pubkey
  ataID : Pubkey
  tokenAccountLEN : Nat
  tokenValidate : AccountState → Except ErrorCode Unit

/-- Mirror of `AssociatedToken::find_address_with_bump`: derive the canonical
associated token address from seeds `[wallet, Token::ID, mint]` under the
associated token program id. -/
def find_address_with_bump (env : Env) (wallet mint : Pubkey) : Pubkey × Nat :=
  env.fpa [wallet, env.tokenID, mint] env.ataID

/-- Mirror of `AssociatedToken::find_address`: the address component of
`find_address_with_bump`. -/
def find_address (env : Env) (wallet mint : Pubkey) : Pubkey :=
  (find_address_with_bump env wallet mint).1

/-- Mirror of `ValidateAta<'a>`: the wallet and mint keys an associated token
account is validated against. -/
structure ValidateAta where
  wallet : Pubkey
  mint : Pubkey
  deriving DecidableEq

/-- Mirror of `AssociatedTokenAccount::validate_ata`: recompute the canonical
address with `AssociatedToken::find_address` and fail with
`ErrorCode::AddressMismatch` unless the account's pubkey equals it. -/
def validate_ata (env : Env) (self : AccountState) (arg : ValidateAta) :
    Except ErrorCode Unit :=
  let expected_address := find_address env arg.wallet arg.mint
  if self.pubkey ≠ expected_address then .error ErrorCode.AddressMismatch
  else .ok ()

/-- Explicitly state-threaded form of `AssociatedTokenAccount::validate_ata`:
the `&self` receiver is passed in and returned, so the embedding shows what
the borrow does to the account state.  The body is the same literal
translation of the source as `validate_ata`. -/
def validate_ata_st (env : Env) (self : AccountState) (arg : ValidateAta) :
    Except ErrorCode Unit × AccountState :=
  let expected_address := find_address env arg.wallet arg.mint
  if self.pubkey ≠ expected_address then (.error ErrorCode.AddressMismatch, self)
  else (.ok (), self)

/-- Mirror of `InitAta<'a, WalletInfo, MintInfo>` restricted to the data the
creation path reads: the wallet and mint account keys (the two `Program`
fields only contribute their account infos to the CPI account list). -/
structure InitAta where
  wallet : Pubkey
  mint : Pubkey
  deriving DecidableEq

/-- Mirror of the `From<InitAta> for ValidateAta` conversion used by
`init_ata.into()`. -/
def InitAta.toValidateAta (i : InitAta) : ValidateAta :=
  ⟨i.wallet, i.mint⟩

/-- Modelled from the spec: the funder capability (`CanFundRent`, defined in
`star_frame::account_set`, outside the excerpt).  It reports whether it can
itself create accounts, and carries optional signer seeds; its balance-top-up
behaviour is recorded as an event by `init_account` below. -/
structure Funder where
  can_create_account : Bool
  signer_seeds : Option (List Bytes)
  deriving DecidableEq

/-- Modelled from the spec: the per-call execution context (`Context`, defined
in `star_frame::context`, outside the excerpt) caches an optional funder
reference (`get_funder`) and the platform rent parameters (`get_rent`, which
can fail); rent is modelled as the data-length → minimum-balance function. -/
structure Context where
  funder : Option Funder
  rent : Except ErrorCode (Nat → Nat)

/-- External effects performed by `AssociatedTokenAccount::init_account`:
`fundRent a` is the `funder.fund_rent(self, a, ctx)` transfer of `a` lamports
from the funder to the account, and `cpiCreate s` is the
`AssociatedToken::cpi(Create, ...).invoke_signed(s)` creation CPI signed with
the seed sets `s`. -/
inductive AtaEvent where
  | fundRent (amount : Nat)
  | cpiCreate (signerSeeds : List (List Bytes))
  deriving DecidableEq

/-- Mirror of the creation tail of `init_account` (after the idempotent-skip
check), shared by the embedding below: the conditional rent top-up, the
`account_seeds` guard, `check_writable`, and the creation CPI signed with the
funder's seeds.  Notes kept against the source:
  * `required_rent = rent.minimum_balance(TokenAccount::LEN).saturating_sub(current_lamports)`
    is `Nat` truncated subtraction; `fund_rent` is invoked only when it is
    positive, and its transfer is modelled as adding the amount to the
    account's lamports (spec: the funder only tops up a balance);
  * the source line `if matches!(account_seeds, Some(_)) { Err(ErrorCode::InvalidSeeds.into()) }`
    lacks a `return` and does not type-check as written; the only well-typed
    completion, and the evident intent, is the early return embedded here;
  * `check_writable` (defined outside the excerpt) fails with
    `ErrorCode::NotWritable` on a non-writable account;
  * `invoke_signed(seeds)` receives `&[funder_seeds]` when the funder has
    signer seeds and `&[]` otherwise — the derived address's seeds are never
    part of it. -/
def init_account_create (env : Env) (self : AccountState) (funder : Funder)
    (account_seeds : Option (List Bytes)) (ctx : Context) :
    Except ErrorCode Unit × AccountState × List AtaEvent :=
  match
    (if funder.can_create_account = false then
      match ctx.rent with
      | .error e => .error e
      | .ok rent =>
        let current_lamports := self.lamports
        let required_rent := rent env.tokenAccountLEN - current_lamports
        if required_rent > 0 then
          .ok ({ self with lamports := self.lamports + required_rent },
            [AtaEvent.fundRent required_rent])
        else .ok (self, [])
    else (.ok (self, []) : Except ErrorCode (AccountState × List AtaEvent))) with
  | .error e => (.error e, self, [])
  | .ok (self1, ev1) =>
    match account_seeds with
    | some _ => (.error ErrorCode.InvalidSeeds, self1, ev1)
    | none =>
      if self1.is_writable = false then (.error ErrorCode.NotWritable, self1, ev1)
      else
        let funder_seeds := funder.signer_seeds
        let seeds : List (List Bytes) :=
          match funder_seeds with
          | some s => [s]
          | none => []
        (.ok (), self1, ev1 ++ [AtaEvent.cpiCreate seeds])

/-- Mirror of
`CanInitAccount<(InitAta, &Funder)>::init_account::<IF_NEEDED>` for
`AssociatedTokenAccount`: if `IF_NEEDED` and the account is already owned by
the token program, run only `self.validate()` and `self.validate_ata(...)`
and return; otherwise take the creation tail `init_account_create`. -/
def init_account (IF_NEEDED : Bool) (env : Env) (self : AccountState)
    (init_ata : InitAta) (funder : Funder) (account_seeds : Option (List Bytes))
    (ctx : Context) : Except ErrorCode Unit × AccountState × List AtaEvent :=
  if IF_NEEDED ∧ self.owner = env.tokenID then
    match env.tokenValidate self with
    | .error e => (.error e, self, [])
    | .ok _ =>
      match validate_ata env self init_ata.toValidateAta with
      | .error e => (.error e, self, [])
      | .ok _ => (.ok (), self, [])
  else init_account_create env self funder account_seeds ctx

/-- Mirror of the funder-less `CanInitAccount<InitAta>::init_account` impl:
take the funder from the context's cache with `ctx.get_funder()`, failing
with `ErrorCode::EmpthFunderCache` when the cache is empty, then delegate to
the `(InitAta, &Funder)` impl. -/
def init_account_auto (IF_NEEDED : Bool) (env : Env) (self : AccountState)
    (init_ata : InitAta) (account_seeds : Option (List Bytes)) (ctx : Context) :
    Except ErrorCode Unit × AccountState × List AtaEvent :=
  match ctx.funder with
  | none => (.error ErrorCode.EmpthFunderCache, self, [])
  | some funder => init_account IF_NEEDED env self init_ata funder account_seeds ctx

/-- Repeated invocation of `init_account`: run it `n` times, rethreading the
account state and accumulating events, stopping at the first error. -/
def init_account_iter (n : Nat) (IF_NEEDED : Bool) (env : Env)
    (self : AccountState) (init_ata : InitAta) (funder : Funder)
    (account_seeds : Option (List Bytes)) (ctx : Context) :
    Except ErrorCode Unit × AccountState × List AtaEvent :=
  match n with
  | 0 => (.ok (), self, [])
  | n + 1 =>
    match init_account IF_NEEDED env self init_ata funder account_seeds ctx with
    | (.error e, s, ev) => (.error e, s, ev)
    | (.ok _, s, ev) =>
      match init_account_iter n IF_NEEDED env s init_ata funder account_seeds ctx with
      | (r, s2, ev2) => (r, s2, ev ++ ev2)

/-! ## Theorems -/

/-- C3: a payload shorter than `size_of::<T>()` makes `process_from_raw` fail
with the size error reporting both the expected and the actual length, with
no external effect performed; the result is the same for any model of the
same instruction size, whatever its stage functions and whatever the account
list — so no account is decoded, validated, run or cleaned up and no
structured value is ever (even partially) produced. -/
theorem process_from_raw_short_payload_fails
    (M : InstructionModel T DA VA RA CA AS Ret Ctx A E)
    (accounts : List A) (instruction_data : Bytes)
    (h : instruction_data.length < M.size) :
    process_from_raw M accounts instruction_data =
      (.error (.invalidDataSize M.size instruction_data.length), []) ∧
    ∀ (M2 : InstructionModel T DA VA RA CA AS Ret Ctx A E) (accounts2 : List A),
      M2.size = M.size →
      process_from_raw M2 accounts2 instruction_data =
        process_from_raw M accounts instruction_data := by
  have hne : instruction_data.length ≠ M.size := Nat.ne_of_lt h
  constructor
  · unfold process_from_raw
    rw [if_neg hne]
  · intro M2 accounts2 hsize
    have hne2 : instruction_data.length ≠ M2.size := by rw [hsize]; exact hne
    unfold process_from_raw
    rw [if_neg hne, if_neg hne2, hsize]

/-- Witness for `process_from_raw_short_payload_fails` at a 3-byte payload
against the 8-byte trivial model. -/
theorem process_from_raw_short_payload_fails_witness :
    process_from_raw trivialModel [] [0, 0, 0] =
      (.error (.invalidDataSize 8 3), []) :=
  (process_from_raw_short_payload_fails trivialModel [] [0, 0, 0] (by decide)).1

/-- C1 (counterexample): a payload strictly longer than the fixed header size
(9 bytes against `size_of::<T>() = 8`) does NOT decode successfully — the
exact-size `ensure!` in `process_from_raw` rejects it — refuting the claim
that any payload of length at least the header size decodes with the excess
bytes going to a trailing value. -/
theorem process_from_raw_long_payload_cx :
    trivialModel.size ≤ (List.replicate 9 0 : Bytes).length ∧
    process_from_raw trivialModel [] (List.replicate 9 0) =
      (.error (.invalidDataSize 8 9), []) ∧
    (process_from_raw trivialModel [] (List.replicate 9 0)).1 ≠ .ok () := by
  refine ⟨by decide, rfl, ?_⟩
  intro hcontra
  exact Except.noConfusion hcontra

/-- C1 (amended): `process_from_raw` rejects a payload with the size error
(reporting expected and actual lengths, performing no effect) exactly when
the payload length differs from `size_of::<T>()` — the decoder demands the
exact fixed size, and no variable-length trailing decode exists. -/
theorem process_from_raw_decodes_iff_exact_size
    (M : InstructionModel T DA VA RA CA AS Ret Ctx A E)
    (accounts : List A) (instruction_data : Bytes) :
    process_from_raw M accounts instruction_data =
      (.error (.invalidDataSize M.size instruction_data.length), []) ↔
    instruction_data.length ≠ M.size := by
  constructor
  · intro heq hlen
    unfold process_from_raw at heq
    rw [if_pos hlen] at heq
    dsimp only at heq
    rcases hdec : M.decode_accounts accounts
        (M.split_to_args (M.fromBytes instruction_data)).decode M.newCtx with e | ⟨as1, rest, ctx1⟩
    · rw [hdec] at heq; simp at heq
    · rw [hdec] at heq; dsimp only at heq
      rcases hval : M.validate_accounts as1
          (M.split_to_args (M.fromBytes instruction_data)).validate ctx1 with e | ⟨as2, ctx2⟩
      · rw [hval] at heq; simp at heq
      · rw [hval] at heq; dsimp only at heq
        rcases hrun : M.process as2
            (M.split_to_args (M.fromBytes instruction_data)).run ctx2 with e | ⟨ret, as3, ctx3⟩
        · rw [hrun] at heq; simp at heq
        · rw [hrun] at heq; dsimp only at heq
          rcases hcl : M.cleanup_accounts as3
              (M.split_to_args (M.fromBytes instruction_data)).cleanup ctx3 with e | ⟨as4, ctx4⟩
          · rw [hcl] at heq; simp at heq
          · rw [hcl] at heq; dsimp only at heq
            by_cases hret : 0 < M.retSize
            · rw [if_pos hret] at heq; simp at heq
            · rw [if_neg hret] at heq; simp at heq
  · intro hne
    unfold process_from_raw
    rw [if_neg hne]

/-- C2: `process_from_raw` runs decode data → split → decode accounts →
validate accounts → run → cleanup → publish, in that order.  A failing stage
makes the whole call return that stage's (context-wrapped) error with no
effect performed, and the result is then independent of every later stage
function — so no later stage executes; when every stage succeeds,
`set_return_data` is performed if and only if `size_of::<T::ReturnType>()` is
positive, and in general return data is published exactly when all stages
succeeded and the declared return size is positive. -/
theorem process_from_raw_stage_order
    (M : InstructionModel T DA VA RA CA AS Ret Ctx A E)
    (accounts : List A) (instruction_data : Bytes) :
    ((∃ bs, (process_from_raw M accounts instruction_data).2 =
        [Effect.setReturnData bs]) ↔
      ((process_from_raw M accounts instruction_data).1 = .ok () ∧ 0 < M.retSize))
    ∧ (instruction_data.length = M.size →
      (∀ e, M.decode_accounts accounts
          (M.split_to_args (M.fromBytes instruction_data)).decode M.newCtx = .error e →
        process_from_raw M accounts instruction_data =
          (.error (.wrapped "Failed to decode accounts" e), []) ∧
        ∀ v2 p2 c2, process_from_raw
            { M with validate_accounts := v2, process := p2, cleanup_accounts := c2 }
            accounts instruction_data =
          (.error (.wrapped "Failed to decode accounts" e), []))
      ∧ (∀ as1 rest ctx1 e, M.decode_accounts accounts
            (M.split_to_args (M.fromBytes instruction_data)).decode M.newCtx =
              .ok (as1, rest, ctx1) →
          M.validate_accounts as1
            (M.split_to_args (M.fromBytes instruction_data)).validate ctx1 = .error e →
        process_from_raw M accounts instruction_data =
          (.error (.wrapped "Failed to validate accounts" e), []) ∧
        ∀ p2 c2, process_from_raw
            { M with process := p2, cleanup_accounts := c2 } accounts instruction_data =
          (.error (.wrapped "Failed to validate accounts" e), []))
      ∧ (∀ as1 rest ctx1 as2 ctx2 e, M.decode_accounts accounts
            (M.split_to_args (M.fromBytes instruction_data)).decode M.newCtx =
              .ok (as1, rest, ctx1) →
          M.validate_accounts as1
            (M.split_to_args (M.fromBytes instruction_data)).validate ctx1 =
              .ok (as2, ctx2) →
          M.process as2
            (M.split_to_args (M.fromBytes instruction_data)).run ctx2 = .error e →
        process_from_raw M accounts instruction_data =
          (.error (.wrapped "Failed to run instruction" e), []) ∧
        ∀ c2, process_from_raw
            { M with cleanup_accounts := c2 } accounts instruction_data =
          (.error (.wrapped "Failed to run instruction" e), []))
      ∧ (∀ as1 rest ctx1 as2 ctx2 ret as3 ctx3 e, M.decode_accounts accounts
            (M.split_to_args (M.fromBytes instruction_data)).decode M.newCtx =
              .ok (as1, rest, ctx1) →
          M.validate_accounts as1
            (M.split_to_args (M.fromBytes instruction_data)).validate ctx1 =
              .ok (as2, ctx2) →
          M.process as2
            (M.split_to_args (M.fromBytes instruction_data)).run ctx2 =
              .ok (ret, as3, ctx3) →
          M.cleanup_accounts as3
            (M.split_to_args (M.fromBytes instruction_data)).cleanup ctx3 = .error e →
        process_from_raw M accounts instruction_data =
          (.error (.wrapped "Failed to cleanup accounts" e), []))
      ∧ (∀ as1 rest ctx1 as2 ctx2 ret as3 ctx3 as4 ctx4, M.decode_accounts accounts
            (M.split_to_args (M.fromBytes instruction_data)).decode M.newCtx =
              .ok (as1, rest, ctx1) →
          M.validate_accounts as1
            (M.split_to_args (M.fromBytes instruction_data)).validate ctx1 =
              .ok (as2, ctx2) →
          M.process as2
            (M.split_to_args (M.fromBytes instruction_data)).run ctx2 =
              .ok (ret, as3, ctx3) →
          M.cleanup_accounts as3
            (M.split_to_args (M.fromBytes instruction_data)).cleanup ctx3 =
              .ok (as4, ctx4) →
        process_from_raw M accounts instruction_data =
          (.ok (), if 0 < M.retSize then [Effect.setReturnData (M.retBytes ret)]
            else []))) := by
  constructor
  · by_cases hlen : instruction_data.length = M.size
    · unfold process_from_raw
      rw [if_pos hlen]
      dsimp only
      rcases hdec : M.decode_accounts accounts
          (M.split_to_args (M.fromBytes instruction_data)).decode M.newCtx with e | ⟨as1, rest, ctx1⟩
      · simp
      · dsimp only
        rcases hval : M.validate_accounts as1
            (M.split_to_args (M.fromBytes instruction_data)).validate ctx1 with e | ⟨as2, ctx2⟩
        · simp
        · dsimp only
          rcases hrun : M.process as2
              (M.split_to_args (M.fromBytes instruction_data)).run ctx2 with e | ⟨ret, as3, ctx3⟩
          · simp
          · dsimp only
            rcases hcl : M.cleanup_accounts as3
                (M.split_to_args (M.fromBytes instruction_data)).cleanup ctx3 with e | ⟨as4, ctx4⟩
            · simp
            · dsimp only
              by_cases hret : 0 < M.retSize
              · rw [if_pos hret]
                simp [hret]
              · rw [if_neg hret]
                simp [hret]
    · unfold process_from_raw
      rw [if_neg hlen]
      simp
  · intro hlen
    refine ⟨?_, ?_, ?_, ?_, ?_⟩
    · intro e hdec
      constructor
      · unfold process_from_raw
        rw [if_pos hlen]
        dsimp only
        rw [hdec]
      · intro v2 p2 c2
        unfold process_from_raw
        rw [if_pos hlen]
        dsimp only
        rw [hdec]
    · intro as1 rest ctx1 e hdec hval
      constructor
      · unfold process_from_raw
        rw [if_pos hlen]
        dsimp only
        rw [hdec]
        dsimp only
        rw [hval]
      · intro p2 c2
        unfold process_from_raw
        rw [if_pos hlen]
        dsimp only
        rw [hdec]
        dsimp only
        rw [hval]
    · intro as1 rest ctx1 as2 ctx2 e hdec hval hrun
      constructor
      · unfold process_from_raw
        rw [if_pos hlen]
        dsimp only
        rw [hdec]
        dsimp only
        rw [hval]
        dsimp only
        rw [hrun]
      · intro c2
        unfold process_from_raw
        rw [if_pos hlen]
        dsimp only
        rw [hdec]
        dsimp only
        rw [hval]
        dsimp only
        rw [hrun]
    · intro as1 rest ctx1 as2 ctx2 ret as3 ctx3 e hdec hval hrun hcl
      unfold process_from_raw
      rw [if_pos hlen]
      dsimp only
      rw [hdec]
      dsimp only
      rw [hval]
      dsimp only
      rw [hrun]
      dsimp only
      rw [hcl]
    · intro as1 rest ctx1 as2 ctx2 ret as3 ctx3 as4 ctx4 hdec hval hrun hcl
      unfold process_from_raw
      rw [if_pos hlen]
      dsimp only
      rw [hdec]
      dsimp only
      rw [hval]
      dsimp only
      rw [hrun]
      dsimp only
      rw [hcl]
      dsimp only
      by_cases hret : 0 < M.retSize
      · rw [if_pos hret, if_pos hret]
      · rw [if_neg hret, if_neg hret]

/-- Witness for `process_from_raw_stage_order`: against the 8-byte trivial
model with a failing validation stage, an exact-size payload returns the
wrapped validation error, and against the all-succeeding trivial model the
call returns `ok` without publishing (its return size is 0). -/
theorem process_from_raw_stage_order_witness :
    process_from_raw
        { trivialModel with validate_accounts := fun _ _ _ => .error () }
        [] (List.replicate 8 0) =
      (.error (.wrapped "Failed to validate accounts" ()), []) ∧
    process_from_raw trivialModel [] (List.replicate 8 0) = (.ok (), []) :=
  ⟨(((process_from_raw_stage_order
        { trivialModel with validate_accounts := fun _ _ _ => .error () }
        [] (List.replicate 8 0)).2 (by decide)).2.1 () [] () () rfl rfl).1,
    by
      have h := ((process_from_raw_stage_order trivialModel []
        (List.replicate 8 0)).2 (by decide)).2.2.2.2 () [] () () () () () () () ()
        rfl rfl rfl rfl
      simpa using h⟩

/-- C6: `validate_ata` succeeds exactly when the account's address equals the
canonical address recomputed by `AssociatedToken::find_address` from the
wallet, `Token::ID` and the mint; it fails with `ErrorCode::AddressMismatch`
exactly on a mismatch; and whenever a change to the wallet or mint seed
changes the derived address (as any single-byte seed change is expected to),
validating the account against the changed seeds fails with
`AddressMismatch`. -/
theorem validate_ata_canonical_address (env : Env) (self : AccountState)
    (arg : ValidateAta) :
    (validate_ata env self arg = .ok () ↔
      self.pubkey = find_address env arg.wallet arg.mint)
    ∧ (validate_ata env self arg = .error ErrorCode.AddressMismatch ↔
      self.pubkey ≠ find_address env arg.wallet arg.mint)
    ∧ (∀ wallet2 mint2,
        self.pubkey = find_address env arg.wallet arg.mint →
        find_address env wallet2 mint2 ≠ find_address env arg.wallet arg.mint →
        validate_ata env self ⟨wallet2, mint2⟩ = .error ErrorCode.AddressMismatch) := by
  refine ⟨?_, ?_, ?_⟩
  · unfold validate_ata
    by_cases h : self.pubkey = find_address env arg.wallet arg.mint
    · rw [if_neg (by simpa using h)]
      simp [h]
    · rw [if_pos (by simpa using h)]
      simp [h]
  · unfold validate_ata
    by_cases h : self.pubkey = find_address env arg.wallet arg.mint
    · rw [if_neg (by simpa using h)]
      simp [h]
    · rw [if_pos (by simpa using h)]
      simp [h]
  · intro wallet2 mint2 hcanon hdiff
    unfold validate_ata
    rw [if_pos]
    intro hcontra
    rw [hcanon] at hcontra
    exact hdiff (hcontra.symm)

/-- Witness environment for the associated-token theorems: the derivation
primitive concatenates the wallet and mint seeds, so distinct seeds give
distinct addresses on the chosen inputs. -/
def envW : Env where
  fpa := fun seeds _ => (seeds.getD 0 [] ++ seeds.getD 2 [], 0)
  tokenID := [3]
  ataID := [4]
  tokenAccountLEN := 165
  tokenValidate := fun _ => .ok ()

/-- Witness for `validate_ata_canonical_address`: a concrete account whose
address matches the canonical derivation for wallet `[1]` and mint `[2]`
validates, and validating it against the changed wallet `[9]` fails with
`AddressMismatch`. -/
theorem validate_ata_canonical_address_witness :
    validate_ata envW ⟨[1, 2], [3], 0, [], true⟩ ⟨[1], [2]⟩ = .ok () ∧
    validate_ata envW ⟨[1, 2], [3], 0, [], true⟩ ⟨[9], [2]⟩ =
      .error ErrorCode.AddressMismatch :=
  ⟨(validate_ata_canonical_address envW ⟨[1, 2], [3], 0, [], true⟩
      ⟨[1], [2]⟩).1.mpr (by decide),
    (validate_ata_canonical_address envW ⟨[1, 2], [3], 0, [], true⟩
      ⟨[1], [2]⟩).2.2 [9] [2] (by decide) (by decide)⟩

/-- C8: `validate_ata` is read-only.  In the state-threaded form the account
passed back is the very account passed in — its address, owner, lamports,
data and writable flag are all unchanged — whether validation succeeds or
fails, and the result component agrees with the pure `validate_ata`. -/
theorem validate_ata_readonly (env : Env) (self : AccountState)
    (arg : ValidateAta) :
    validate_ata_st env self arg = (validate_ata env self arg, self)
    ∧ (validate_ata_st env self arg).2.pubkey = self.pubkey
    ∧ (validate_ata_st env self arg).2.owner = self.owner
    ∧ (validate_ata_st env self arg).2.lamports = self.lamports
    ∧ (validate_ata_st env self arg).2.data = self.data
    ∧ (validate_ata_st env self arg).2.is_writable = self.is_writable := by
  unfold validate_ata_st validate_ata
  by_cases h : self.pubkey = find_address env arg.wallet arg.mint
  · rw [if_neg (by simpa using h), if_neg (by simpa using h)]
    exact ⟨rfl, rfl, rfl, rfl, rfl, rfl⟩
  · rw [if_pos (by simpa using h), if_pos (by simpa using h)]
    exact ⟨rfl, rfl, rfl, rfl, rfl, rfl⟩

/-- C4: when the account is already owned by the token program and
`IF_NEEDED = true`, `init_account` takes the skip branch: it runs only the
token-account validation and the canonical-address check, and (when those
pass) returns success with the account state untouched and no external event
— no creation CPI and no balance transfer; consequently any number of
repeated create-if-needed calls against such an account all succeed with
zero balance transferred. -/
theorem init_account_if_needed_idempotent (env : Env) (self : AccountState)
    (init_ata : InitAta) (funder : Funder) (account_seeds : Option (List Bytes))
    (ctx : Context) (n : Nat)
    (howner : self.owner = env.tokenID)
    (hvalid : env.tokenValidate self = .ok ())
    (hata : validate_ata env self init_ata.toValidateAta = .ok ()) :
    init_account true env self init_ata funder account_seeds ctx =
      (.ok (), self, [])
    ∧ init_account_iter n true env self init_ata funder account_seeds ctx =
      (.ok (), self, []) := by
  have hone : init_account true env self init_ata funder account_seeds ctx =
      (.ok (), self, []) := by
    unfold init_account
    rw [if_pos ⟨rfl, howner⟩, hvalid]
    dsimp only
    rw [hata]
  refine ⟨hone, ?_⟩
  induction n with
  | zero => rfl
  | succ n ih =>
    unfold init_account_iter
    rw [hone]
    dsimp only
    rw [ih]
    simp

/-- Witness for `init_account_if_needed_idempotent`: a concrete valid
associated-token account owned by the token program; three repeated
create-if-needed calls all return success with no funding or creation
event. -/
theorem init_account_if_needed_idempotent_witness :
    init_account true envW ⟨[1, 2], [3], 5, [], true⟩ ⟨[1], [2]⟩
        ⟨true, none⟩ none ⟨none, .ok fun _ => 0⟩ = (.ok (), ⟨[1, 2], [3], 5, [], true⟩, [])
    ∧ init_account_iter 3 true envW ⟨[1, 2], [3], 5, [], true⟩ ⟨[1], [2]⟩
        ⟨true, none⟩ none ⟨none, .ok fun _ => 0⟩ =
      (.ok (), ⟨[1, 2], [3], 5, [], true⟩, []) :=
  init_account_if_needed_idempotent envW ⟨[1, 2], [3], 5, [], true⟩ ⟨[1], [2]⟩
    ⟨true, none⟩ none ⟨none, .ok fun _ => 0⟩ 3 (by decide) rfl rfl

/-- C9: the funder-less `init_account` impl reads the context's funder cache
first; when `get_funder` returns `none` it fails with
`ErrorCode::EmpthFunderCache` immediately — before any validation, funding
transfer or creation — returning the account state unchanged and performing
no event. -/
theorem init_account_auto_empty_funder_cache (IF_NEEDED : Bool) (env : Env)
    (self : AccountState) (init_ata : InitAta)
    (account_seeds : Option (List Bytes)) (ctx : Context)
    (hfunder : ctx.funder = none) :
    init_account_auto IF_NEEDED env self init_ata account_seeds ctx =
      (.error ErrorCode.EmpthFunderCache, self, []) := by
  unfold init_account_auto
  rw [hfunder]

/-- Witness for `init_account_auto_empty_funder_cache` on a concrete account
and context with an empty funder cache. -/
theorem init_account_auto_empty_funder_cache_witness :
    init_account_auto true envW ⟨[1, 2], [3], 5, [], true⟩ ⟨[1], [2]⟩ none
        ⟨none, .ok fun _ => 0⟩ =
      (.error ErrorCode.EmpthFunderCache, ⟨[1, 2], [3], 5, [], true⟩, []) :=
  init_account_auto_empty_funder_cache true envW ⟨[1, 2], [3], 5, [], true⟩
    ⟨[1], [2]⟩ none ⟨none, .ok fun _ => 0⟩ rfl

/-- C10: on the creation path, when the funder reports it can itself create
accounts, `init_account` performs no rent top-up: no `fund_rent` event occurs
and the account state it returns is the input state (in particular its
lamports are untouched by funding). -/
theorem init_account_no_funding_when_creator (IF_NEEDED : Bool) (env : Env)
    (self : AccountState) (init_ata : InitAta) (funder : Funder)
    (account_seeds : Option (List Bytes)) (ctx : Context)
    (hskip : ¬(IF_NEEDED = true ∧ self.owner = env.tokenID))
    (hcreate : funder.can_create_account = true) :
    (∀ a, AtaEvent.fundRent a ∉
      (init_account IF_NEEDED env self init_ata funder account_seeds ctx).2.2)
    ∧ (init_account IF_NEEDED env self init_ata funder account_seeds ctx).2.1 =
      self := by
  unfold init_account init_account_create
  rw [if_neg hskip, if_neg (by simp [hcreate])]
  dsimp only
  rcases account_seeds with _ | s
  · dsimp only
    by_cases hw : self.is_writable = false
    · rw [if_pos hw]
      exact ⟨fun a h => by simp at h, rfl⟩
    · rw [if_neg hw]
      exact ⟨fun a h => by simp at h, rfl⟩
  · exact ⟨fun a h => by simp at h, rfl⟩

/-- Witness for `init_account_no_funding_when_creator`: with a funder that
can create accounts, a concrete creation-path call yields no `fundRent`
event and leaves the account state unchanged. -/
theorem init_account_no_funding_when_creator_witness :
    AtaEvent.fundRent 7 ∉
      (init_account false envW ⟨[1, 2], [9], 3, [], true⟩ ⟨[1], [2]⟩
        ⟨true, none⟩ none ⟨none, .ok fun _ => 10⟩).2.2
    ∧ (init_account false envW ⟨[1, 2], [9], 3, [], true⟩ ⟨[1], [2]⟩
        ⟨true, none⟩ none ⟨none, .ok fun _ => 10⟩).2.1 = ⟨[1, 2], [9], 3, [], true⟩ :=
  ⟨(init_account_no_funding_when_creator false envW ⟨[1, 2], [9], 3, [], true⟩
      ⟨[1], [2]⟩ ⟨true, none⟩ none ⟨none, .ok fun _ => 10⟩ (by decide) rfl).1 7,
    (init_account_no_funding_when_creator false envW ⟨[1, 2], [9], 3, [], true⟩
      ⟨[1], [2]⟩ ⟨true, none⟩ none ⟨none, .ok fun _ => 10⟩ (by decide) rfl).2⟩

/-- C5: on the creation path with a funder that cannot itself create
accounts, the rent top-up transfers exactly
`minimum_balance(TokenAccount::LEN) - current_lamports` (saturating, i.e.
`max(0, minimum − current)`): a `fundRent` event with amount `a` occurs if
and only if the shortfall is strictly positive and `a` equals it; the
account's resulting balance is the old balance plus the shortfall, so
funding never decreases it. -/
theorem init_account_funding_shortfall (IF_NEEDED : Bool) (env : Env)
    (self : AccountState) (init_ata : InitAta) (funder : Funder)
    (account_seeds : Option (List Bytes)) (ctx : Context) (rent : Nat → Nat)
    (hskip : ¬(IF_NEEDED = true ∧ self.owner = env.tokenID))
    (hnc : funder.can_create_account = false)
    (hrent : ctx.rent = .ok rent) :
    (∀ a, AtaEvent.fundRent a ∈
        (init_account IF_NEEDED env self init_ata funder account_seeds ctx).2.2 ↔
      (a = rent env.tokenAccountLEN - self.lamports ∧
        0 < rent env.tokenAccountLEN - self.lamports))
    ∧ (init_account IF_NEEDED env self init_ata funder account_seeds ctx).2.1.lamports =
        self.lamports + (rent env.tokenAccountLEN - self.lamports)
    ∧ self.lamports ≤
        (init_account IF_NEEDED env self init_ata funder account_seeds ctx).2.1.lamports := by
  have key : init_account IF_NEEDED env self init_ata funder account_seeds ctx =
      init_account_create env self funder account_seeds ctx := by
    unfold init_account
    rw [if_neg hskip]
  rw [key]
  unfold init_account_create
  rw [if_pos hnc, hrent]
  dsimp only
  by_cases h : 0 < rent env.tokenAccountLEN - self.lamports
  · rw [if_pos h]
    dsimp only
    rcases account_seeds with _ | s
    · dsimp only
      by_cases hw : ({ self with lamports :=
          self.lamports + (rent env.tokenAccountLEN - self.lamports)} :
            AccountState).is_writable = false
      · rw [if_pos hw]
        refine ⟨fun a => ?_, rfl, Nat.le_add_right _ _⟩
        simp [h, eq_comm]
      · rw [if_neg hw]
        refine ⟨fun a => ?_, rfl, Nat.le_add_right _ _⟩
        simp [h, eq_comm]
    · dsimp only
      refine ⟨fun a => ?_, rfl, Nat.le_add_right _ _⟩
      simp [h, eq_comm]
  · rw [if_neg h]
    dsimp only
    have hz : rent env.tokenAccountLEN - self.lamports = 0 := Nat.eq_zero_of_not_pos h
    rcases account_seeds with _ | s
    · dsimp only
      by_cases hw : self.is_writable = false
      · rw [if_pos hw]
        refine ⟨fun a => ?_, by simp [hz], by simp⟩
        simp [hz]
      · rw [if_neg hw]
        refine ⟨fun a => ?_, by simp [hz], by simp⟩
        simp [hz]
    · dsimp only
      refine ⟨fun a => ?_, by simp [hz], by simp⟩
      simp [hz]

/-- Witness for `init_account_funding_shortfall`: rent minimum 10 against a
balance of 3 on the creation path with a non-creating funder transfers
exactly 7 and tops the balance up to 10. -/
theorem init_account_funding_shortfall_witness :
    AtaEvent.fundRent 7 ∈
      (init_account false envW ⟨[1, 2], [9], 3, [], true⟩ ⟨[1], [2]⟩
        ⟨false, none⟩ none ⟨none, .ok fun _ => 10⟩).2.2
    ∧ (init_account false envW ⟨[1, 2], [9], 3, [], true⟩ ⟨[1], [2]⟩
        ⟨false, none⟩ none ⟨none, .ok fun _ => 10⟩).2.1.lamports = 10 :=
  ⟨((init_account_funding_shortfall false envW ⟨[1, 2], [9], 3, [], true⟩
      ⟨[1], [2]⟩ ⟨false, none⟩ none ⟨none, .ok fun _ => 10⟩ (fun _ => 10)
      (by decide) rfl rfl).1 7).mpr (by decide),
    (init_account_funding_shortfall false envW ⟨[1, 2], [9], 3, [], true⟩
      ⟨[1], [2]⟩ ⟨false, none⟩ none ⟨none, .ok fun _ => 10⟩ (fun _ => 10)
      (by decide) rfl rfl).2.1⟩

/-- C7 (counterexample): supplying the derived account's seeds to
`init_account` on the creation path is NOT accepted: a concrete call with
`account_seeds = some [[5]]` fails with `ErrorCode::InvalidSeeds` and never
reaches the creation CPI, refuting the claim that supplied seeds are
accepted and used for signing. -/
theorem init_account_supplied_seeds_rejected_cx :
    init_account false envW ⟨[1, 2], [9], 3, [], true⟩ ⟨[1], [2]⟩
        ⟨true, none⟩ (some [[5]]) ⟨none, .ok fun _ => 10⟩ =
      (.error ErrorCode.InvalidSeeds, ⟨[1, 2], [9], 3, [], true⟩, []) := rfl

/-- C7 (amended): on the creation path the creation CPI is signed only with
the funder's signer seeds — whenever a `cpiCreate` event occurs its seed sets
are exactly `[funder.signer_seeds]` (or none), never the derived address's
seeds plus bump — and supplying `account_seeds` is rejected: the call returns
an error and the creation CPI never happens. -/
theorem init_account_signs_with_funder_seeds (IF_NEEDED : Bool) (env : Env)
    (self : AccountState) (init_ata : InitAta) (funder : Funder)
    (account_seeds : Option (List Bytes)) (ctx : Context)
    (hskip : ¬(IF_NEEDED = true ∧ self.owner = env.tokenID)) :
    (∀ s, account_seeds = some s →
      (∃ e, (init_account IF_NEEDED env self init_ata funder account_seeds ctx).1 =
        .error e)
      ∧ ∀ s2, AtaEvent.cpiCreate s2 ∉
        (init_account IF_NEEDED env self init_ata funder account_seeds ctx).2.2)
    ∧ (∀ s2, AtaEvent.cpiCreate s2 ∈
        (init_account IF_NEEDED env self init_ata funder account_seeds ctx).2.2 →
      s2 = match funder.signer_seeds with | some s => [s] | none => []) := by
  have key : init_account IF_NEEDED env self init_ata funder account_seeds ctx =
      init_account_create env self funder account_seeds ctx := by
    unfold init_account
    rw [if_neg hskip]
  rw [key]
  unfold init_account_create
  by_cases hc : funder.can_create_account = false
  · rw [if_pos hc]
    rcases hr : ctx.rent with e | rent
    · dsimp only
      exact ⟨fun s hs => ⟨⟨e, rfl⟩, fun s2 h => by simp at h⟩, fun s2 h => by simp at h⟩
    · dsimp only
      by_cases hsf : 0 < rent env.tokenAccountLEN - self.lamports
      · rw [if_pos hsf]
        dsimp only
        rcases account_seeds with _ | s
        · dsimp only
          refine ⟨fun s hs => by simp at hs, fun s2 h => ?_⟩
          by_cases hw : ({ self with lamports :=
              self.lamports + (rent env.tokenAccountLEN - self.lamports)} :
                AccountState).is_writable = false
          · rw [if_pos hw] at h
            simp at h
          · rw [if_neg hw] at h
            simp at h
            exact h
        · dsimp only
          exact ⟨fun s3 hs => ⟨⟨ErrorCode.InvalidSeeds, rfl⟩, fun s2 h => by simp at h⟩,
            fun s2 h => by simp at h⟩
      · rw [if_neg hsf]
        dsimp only
        rcases account_seeds with _ | s
        · dsimp only
          refine ⟨fun s hs => by simp at hs, fun s2 h => ?_⟩
          by_cases hw : self.is_writable = false
          · rw [if_pos hw] at h
            simp at h
          · rw [if_neg hw] at h
            simp at h
            exact h
        · dsimp only
          exact ⟨fun s3 hs => ⟨⟨ErrorCode.InvalidSeeds, rfl⟩, fun s2 h => by simp at h⟩,
            fun s2 h => by simp at h⟩
  · rw [if_neg hc]
    dsimp only
    rcases account_seeds with _ | s
    · dsimp only
      refine ⟨fun s hs => by simp at hs, fun s2 h => ?_⟩
      by_cases hw : self.is_writable = false
      · rw [if_pos hw] at h
        simp at h
      · rw [if_neg hw] at h
        simp at h
        exact h
    · dsimp only
      exact ⟨fun s3 hs => ⟨⟨ErrorCode.InvalidSeeds, rfl⟩, fun s2 h => by simp at h⟩,
        fun s2 h => by simp at h⟩

/-- Witness for `init_account_signs_with_funder_seeds`: a concrete creation
call (no supplied seeds, funder with signer seeds `[[7]]`) produces a
creation CPI whose signer-seed sets are exactly `[[[7]]]` — the funder's —
and a concrete call with supplied seeds errors. -/
theorem init_account_signs_with_funder_seeds_witness :
    AtaEvent.cpiCreate [[[7]]] ∉
      (init_account false envW ⟨[1, 2], [9], 3, [], true⟩ ⟨[1], [2]⟩
        ⟨true, some [[7]]⟩ (some [[5]]) ⟨none, .ok fun _ => 10⟩).2.2 ∧
    [[[7]]] = match (some [[7]] : Option (List Bytes)) with
      | some s => [s] | none => ([] : List (List Bytes)) :=
  ⟨((init_account_signs_with_funder_seeds false envW
      ⟨[1, 2], [9], 3, [], true⟩ ⟨[1], [2]⟩ ⟨true, some [[7]]⟩ (some [[5]])
      ⟨none, .ok fun _ => 10⟩ (by decide)).1 [[5]] rfl).2 [[[7]]],
    ((init_account_signs_with_funder_seeds false envW
      ⟨[1, 2], [9], 3, [], true⟩ ⟨[1], [2]⟩ ⟨true, some [[7]]⟩ none
      ⟨none, .ok fun _ => 10⟩ (by decide)).2 [[[7]]] (by decide)).symm ▸ rfl⟩

end StarFrame
